import Mathlib

/-!
# The Blocks projection view (`appinterface/projection/view/blocks.go`)

A shallow embedding of the view's three operations `Insert`, `FindBy` and
`Count`, of the two council-node conversions, and of the Go error values they
return, followed by the properties established about them.

Go values are embedded as follows.

* `int64` and `int` are `Int`; the only arithmetic in the file is
  `UnixNano`, which wraps modulo `2^64`.
* a pointer that the code tests or dereferences is an `Option`;
* a slice is an `Option (List _)`: `none` is the nil slice, `some []` the
  empty one;
* a `(value, error)` result whose value is read only after the error test is
  an `Except`;
* a nil-pointer dereference ends the call in `Outcome.fault`.
-/

namespace View

/-! ## Errors -/

/-- Modelled from the spec: package `rdb` is not among the sources; the error
values of that package that `blocks.go` names are taken as pairwise distinct
package-level values, one per identifier (section 7 has the error kinds
distinguishable from one another). -/
inductive Sentinel where
  | ErrBuildSQLStmt
  | ErrPrepare
  | ErrWrite
  | ErrQuery
  | ErrNoRows
  deriving DecidableEq, Repr

/-- A Go `error` value, as far as `errors.Is` and `==` can tell values apart.
`errorfV`, `errorfW` and `errorfVW` are the three shapes of `fmt.Errorf` call
in the file: the format text up to its first verb, the value shown by `%v`,
and the value wrapped by `%w`. -/
inductive GoError where
  /-- One of the package-level values of `rdb`. -/
  | sentinel (s : Sentinel)
  /-- An error made elsewhere (driver, statement builder, JSON library) that
  wraps nothing. -/
  | leaf (text : String)
  /-- The call `fmt.Errorf("text: %v", v)`: nothing is wrapped. -/
  | errorfV (text : String) (v : GoError)
  /-- The call `fmt.Errorf("text: %w", w)`: `Unwrap` gives `w`. -/
  | errorfW (text : String) (w : GoError)
  /-- The call `fmt.Errorf("text: %v: %w", v, w)`: `Unwrap` gives `w`. -/
  | errorfVW (text : String) (v : GoError) (w : GoError)
  deriving DecidableEq, Repr

/-- Go's `errors.Is(err, target)` for a target that is a value of `rdb`:
the chain of `Unwrap` is walked and each link is compared with `==`. -/
def errorsIs : GoError → Sentinel → Bool
  | .sentinel s, target => decide (s = target)
  | .leaf _, _ => false
  | .errorfV _ _, _ => false
  | .errorfW _ w, target => errorsIs w target
  | .errorfVW _ _ w, target => errorsIs w target

/-! ## Time -/

/-- Modelled from the spec: package `internal/utctime` is not among the
sources. A `UTCTime` is a UTC instant with nanosecond precision, held as the
number of nanoseconds since the Unix epoch; the instants Go can hold reach
beyond what 64 bits count, so the number is unbounded. -/
structure UTCTime where
  nanos : Int
  deriving DecidableEq, Repr

/-- The value of an `int64` holding the integer `x`: two's complement
wrap-around. -/
def wrapInt64 (x : Int) : Int :=
  (x + 2 ^ 63) % 2 ^ 64 - 2 ^ 63

/-- Modelled from the spec: `UTCTime.UnixNano`, the instant as an `int64` of
nanoseconds since the epoch. -/
def UTCTime.UnixNano (t : UTCTime) : Int :=
  wrapInt64 t.nanos

/-- Modelled from the spec: `utctime.FromUnixNano`, the UTC instant
reconstructed from a nanosecond count. -/
def utctimeFromUnixNano (unixNano : Int) : UTCTime :=
  ⟨unixNano⟩

/-! ## Data model (lines 149-175) -/

structure BlockCommittedCouncilNode where
  Address : String
  Time : UTCTime
  Signature : String
  IsProposer : Bool
  deriving DecidableEq, Repr

structure RdbBlockCommittedCouncilNode where
  Address : String
  Time : Int
  Signature : String
  IsProposer : Bool
  deriving DecidableEq, Repr

structure Block where
  Height : Int
  Hash : String
  Time : UTCTime
  AppHash : String
  TransactionCount : Int
  CommittedCouncilNodes : Option (List BlockCommittedCouncilNode)
  deriving DecidableEq, Repr

structure BlockIdentity where
  MaybeHeight : Option Int
  MaybeHash : Option String
  deriving DecidableEq, Repr

/-! ## Council-node conversions (lines 131-147) -/

def NewRdbBlockCommittedCouncilNodeFromRaw (raw : BlockCommittedCouncilNode) :
    RdbBlockCommittedCouncilNode :=
  { Address := raw.Address
    Time := raw.Time.UnixNano
    Signature := raw.Signature
    IsProposer := raw.IsProposer }

def RdbBlockCommittedCouncilNode.ToRaw (node : RdbBlockCommittedCouncilNode) :
    BlockCommittedCouncilNode :=
  { Address := node.Address
    Time := utctimeFromUnixNano node.Time
    Signature := node.Signature
    IsProposer := node.IsProposer }

/-! ## Collaborators

The relational handle, its statement builder and the JSON library are used by
the view and defined elsewhere; the operations take them as parameters. -/

/-- A value handed to, or received from, the relational store (Go's
`interface{}` arguments of `Exec` and `QueryRow`). -/
inductive SqlValue where
  | null
  | int (i : Int)
  | text (s : String)
  deriving DecidableEq, Repr

/-- The statement builder `view.rdb.StmtBuilder`, by the two fluent chains the
file ends in `ToSql()`: the result `(sql, args, err)` is an `Except`, the
statement and its arguments being read only when `err` is nil. -/
structure StmtBuilder where
  /-- The chain `Insert(table).Columns(columns...).Values(values...).ToSql()`. -/
  InsertToSql : String → List String → List SqlValue → Except GoError (String × List SqlValue)
  /-- The chain `Select(columns...).From(table).ToSql()`, with the `Where(pred, arg)`
  step between `From` and `ToSql` when one is given. -/
  SelectToSql : List String → String → Option (String × SqlValue) →
    Except GoError (String × List SqlValue)

/-- What `Scan` leaves in the six destinations of `FindBy` (lines 85-92) when
it reports no error. The time column is held by the reader behind
`ScannableArg()` until `Parse()`; the JSON column is scanned into a
`*string`, nil for a NULL column. -/
structure BlockRow where
  Height : Int
  Hash : String
  Time : SqlValue
  AppHash : String
  CommittedCouncilNodesJSON : Option String
  TransactionCount : Int
  deriving DecidableEq, Repr

/-- The relational handle `*rdb.Handle` over a store of type `σ`. Every call
that reaches the store takes the store and gives it back, so that what a call
does to it is visible. -/
structure Handle (σ : Type) where
  StmtBuilder : StmtBuilder
  /-- The call `Exec(sql, args...)`: the error, or the `RowsAffected()` of the
  result. -/
  Exec : σ → String → List SqlValue → σ × Except GoError Int
  /-- The call `QueryRow(sql, args...).Scan(...)` with the six destinations of
  `FindBy`. -/
  QueryRowScanBlock : σ → String → List SqlValue → σ × Except GoError BlockRow
  /-- The call `QueryRow(sql).Scan(&count)` of `Count`. -/
  QueryRowScanCount : σ → String → List SqlValue → σ × Except GoError Int
  /-- The call `Tton(&t)`: the value stored for a time. -/
  Tton : UTCTime → SqlValue
  /-- The reader of `NtotReader()`: `Parse()` on the value it scanned, giving
  Go's pair of a `*utctime.UTCTime` and an `error`. -/
  NtotParse : SqlValue → Option UTCTime × Option GoError

/-- The two functions of the JSON library `jsoniter` the file calls, at the
type of the council-node slice. -/
structure Jsoniter where
  MarshalToString : Option (List BlockCommittedCouncilNode) → Except GoError String
  /-- The call `Unmarshal(data, &nodes)` on a nil slice `nodes`: the error, or
  the slice afterwards. -/
  Unmarshal : String → Except GoError (Option (List BlockCommittedCouncilNode))

/-! ## The view (lines 13-129) -/

structure Blocks (σ : Type) where
  rdb : Handle σ

def NewBlocks {σ : Type} (handle : Handle σ) : Blocks σ :=
  ⟨handle⟩

/-- The pointer dereferences of `FindBy` that no nil test guards. -/
inductive Deref where
  /-- Line 74, `*identity.MaybeHeight`. -/
  | MaybeHeight
  /-- Line 102, `*blockTime`. -/
  | blockTime
  /-- Line 105, `*committedCouncilNodesJSON`. -/
  | committedCouncilNodesJSON
  deriving DecidableEq, Repr

/-- How a call ends: it returns, or it dereferences a nil pointer. -/
inductive Outcome (α : Type) where
  | fault (site : Deref)
  | returned (a : α)
  deriving DecidableEq, Repr

def blockColumns : List String :=
  ["height", "hash", "time", "app_hash", "committed_council_nodes", "transaction_count"]

/-- Line 37: the six `"?"` given to `Values`. -/
def insertPlaceholders : List SqlValue :=
  [.text "?", .text "?", .text "?", .text "?", .text "?", .text "?"]

/-- Lines 48-53: the arguments given to `Exec`. -/
def insertArgs {σ : Type} (view : Blocks σ) (block : Block) (committedCouncilNodesJSON : String) :
    List SqlValue :=
  [.int block.Height, .text block.Hash, view.rdb.Tton block.Time, .text block.AppHash,
    .text committedCouncilNodesJSON, .int block.TransactionCount]

/-- Lines 24-63. -/
def Blocks.Insert {σ : Type} (jsoniter : Jsoniter) (view : Blocks σ) (store : σ)
    (block : Block) : σ × Option GoError :=
  match view.rdb.StmtBuilder.InsertToSql "view_blocks" blockColumns insertPlaceholders with
  | .error err =>
    (store, some (.errorfVW "error building blocks insertion sql" err
      (.sentinel .ErrBuildSQLStmt)))
  | .ok (sql, _) =>
    match jsoniter.MarshalToString block.CommittedCouncilNodes with
    | .error err =>
      (store, some (.errorfVW
        "error JSON marshalling blocks committed council nodes for insertion" err
        (.sentinel .ErrBuildSQLStmt)))
    | .ok committedCouncilNodesJSON =>
      match view.rdb.Exec store sql (insertArgs view block committedCouncilNodesJSON) with
      | (store', .error err) =>
        (store', some (.errorfVW "error inserting block into the table" err
          (.sentinel .ErrWrite)))
      | (store', .ok rowsAffected) =>
        if rowsAffected ≠ 1 then
          (store', some (.errorfW "error inserting block into the table: no rows inserted"
            (.sentinel .ErrWrite)))
        else
          (store', none)

/-- Lines 71-75: the predicate and argument given to `Where`. The argument is
evaluated when `Where` is called, so a nil `MaybeHeight` faults here. -/
def findByWhere (identity : BlockIdentity) : Outcome (String × SqlValue) :=
  match identity.MaybeHash with
  | some hash => .returned ("hash = ?", .text hash)
  | none =>
    match identity.MaybeHeight with
    | some height => .returned ("height = ?", .int height)
    | none => .fault .MaybeHeight

/-- Lines 65-112. -/
def Blocks.FindBy {σ : Type} (jsoniter : Jsoniter) (view : Blocks σ) (store : σ)
    (identity : BlockIdentity) : σ × Outcome (Option Block × Option GoError) :=
  match findByWhere identity with
  | .fault site => (store, .fault site)
  | .returned condition =>
    match view.rdb.StmtBuilder.SelectToSql blockColumns "view_blocks" (some condition) with
    | .error err =>
      (store, .returned (none, some (.errorfVW "error building blocks selection sql" err
        (.sentinel .ErrPrepare))))
    | .ok (sql, sqlArgs) =>
      match view.rdb.QueryRowScanBlock store sql sqlArgs with
      | (store', .error err) =>
        if err = .sentinel .ErrNoRows then
          (store', .returned (none, some (.sentinel .ErrNoRows)))
        else
          (store', .returned (none, some (.errorfVW "error scanning block row" err
            (.sentinel .ErrQuery))))
      | (store', .ok row) =>
        match view.rdb.NtotParse row.Time with
        | (_, some err) =>
          (store', .returned (none, some (.errorfVW "error parsing block time" err
            (.sentinel .ErrQuery))))
        | (none, none) => (store', .fault .blockTime)
        | (some blockTime, none) =>
          match row.CommittedCouncilNodesJSON with
          | none => (store', .fault .committedCouncilNodesJSON)
          | some committedCouncilNodesJSON =>
            match jsoniter.Unmarshal committedCouncilNodesJSON with
            | .error err =>
              (store', .returned (none, some (.errorfVW
                "error unmarshalling block council nodes JSON" err (.sentinel .ErrQuery))))
            | .ok committedCouncilNodes =>
              (store', .returned (some
                { Height := row.Height
                  Hash := row.Hash
                  Time := blockTime
                  AppHash := row.AppHash
                  TransactionCount := row.TransactionCount
                  CommittedCouncilNodes := committedCouncilNodes }, none))

/-- Lines 114-129. -/
def Blocks.Count {σ : Type} (view : Blocks σ) (store : σ) : σ × (Int × Option GoError) :=
  match view.rdb.StmtBuilder.SelectToSql ["COUNT(1)"] "view_blocks" none with
  | .error err =>
    (store, (0, some (.errorfV "error building blocks count selection sql" err)))
  | .ok (sql, _) =>
    match view.rdb.QueryRowScanCount store sql [] with
    | (store', .error err) =>
      (store', (0, some (.errorfV "error scanning blocks count selection query" err)))
    | (store', .ok count) => (store', (count, none))

/-! ## A model store

What is read back after an insert depends on the store behind the handle;
this one is the table `view_blocks` held as a list of rows. -/

/-- Modelled from the spec: the statement builder is not among the sources.
This one renders the three statements of the view as text with `?`
placeholders and never fails. -/
def modelStmtBuilder : StmtBuilder where
  InsertToSql table columns values :=
    .ok ("INSERT INTO " ++ table ++ " (" ++ ",".intercalate columns ++ ") VALUES ("
      ++ ",".intercalate (values.map fun _ => "?") ++ ")", values)
  SelectToSql columns table condition :=
    match condition with
    | none => .ok ("SELECT " ++ ", ".intercalate columns ++ " FROM " ++ table, [])
    | some (pred, arg) =>
      .ok ("SELECT " ++ ", ".intercalate columns ++ " FROM " ++ table ++ " WHERE " ++ pred,
        [arg])

/-- A row of the table `view_blocks` (section 6 of the specification). -/
structure StoredRow where
  height : Int
  hash : String
  time : SqlValue
  appHash : String
  committedCouncilNodes : Option String
  transactionCount : Int
  deriving DecidableEq, Repr

/-- The table `view_blocks`: its rows, oldest first. -/
abbrev ModelStore := List StoredRow

def insertBlockSql : String :=
  "INSERT INTO view_blocks (height,hash,time,app_hash,committed_council_nodes,transaction_count) VALUES (?,?,?,?,?,?)"

def selectBlockSql : String :=
  "SELECT height, hash, time, app_hash, committed_council_nodes, transaction_count FROM view_blocks"

def selectByHashSql : String :=
  selectBlockSql ++ " WHERE hash = ?"

def selectByHeightSql : String :=
  selectBlockSql ++ " WHERE height = ?"

def countSql : String :=
  "SELECT COUNT(1) FROM view_blocks"

def StoredRow.toBlockRow (row : StoredRow) : BlockRow :=
  { Height := row.height
    Hash := row.hash
    Time := row.time
    AppHash := row.appHash
    CommittedCouncilNodesJSON := row.committedCouncilNodes
    TransactionCount := row.transactionCount }

/-- Modelled from the spec: `Exec` of the relational handle, which is not
among the sources. The insert statement adds one row and reports one row
affected, unless a row with that height or that hash is there already
(height and hash are each unique); the store keeps one row per successful
insert and nothing else changes it. -/
def modelExec (store : ModelStore) (sql : String) (args : List SqlValue) :
    ModelStore × Except GoError Int :=
  if sql = insertBlockSql then
    match args with
    | [.int height, .text hash, time, .text appHash, .text json, .int transactionCount] =>
      if store.any (fun row => decide (row.height = height) || decide (row.hash = hash)) then
        (store, .error (.leaf "duplicate key value violates unique constraint"))
      else
        (store ++ [{ height := height, hash := hash, time := time, appHash := appHash,
                     committedCouncilNodes := some json,
                     transactionCount := transactionCount }], .ok 1)
    | _ => (store, .error (.leaf "wrong arguments"))
  else
    (store, .error (.leaf "unknown statement"))

/-- Modelled from the spec: `QueryRow(...).Scan(...)` of the relational
handle for the block row: the row with the given hash or height, or the
no-rows value of the handle when there is none. The store is left as it is.
-/
def modelQueryRowScanBlock (store : ModelStore) (sql : String) (args : List SqlValue) :
    ModelStore × Except GoError BlockRow :=
  if sql = selectByHashSql then
    match args with
    | [.text hash] =>
      match store.find? (fun row => decide (row.hash = hash)) with
      | some row => (store, .ok row.toBlockRow)
      | none => (store, .error (.sentinel .ErrNoRows))
    | _ => (store, .error (.leaf "wrong arguments"))
  else if sql = selectByHeightSql then
    match args with
    | [.int height] =>
      match store.find? (fun row => decide (row.height = height)) with
      | some row => (store, .ok row.toBlockRow)
      | none => (store, .error (.sentinel .ErrNoRows))
    | _ => (store, .error (.leaf "wrong arguments"))
  else
    (store, .error (.leaf "unknown statement"))

/-- Modelled from the spec: `QueryRow(...).Scan(&count)` of the relational
handle for `SELECT COUNT(1)`: the number of rows. The store is left as it is.
-/
def modelQueryRowScanCount (store : ModelStore) (sql : String) (args : List SqlValue) :
    ModelStore × Except GoError Int :=
  if sql = countSql ∧ args = [] then
    (store, .ok store.length)
  else
    (store, .error (.leaf "unknown statement"))

/-- Modelled from the spec: a relational handle over the model store, for a
given pair of time encoding and decoding. -/
def modelHandle (tton : UTCTime → SqlValue)
    (ntotParse : SqlValue → Option UTCTime × Option GoError) : Handle ModelStore where
  StmtBuilder := modelStmtBuilder
  Exec := modelExec
  QueryRowScanBlock := modelQueryRowScanBlock
  QueryRowScanCount := modelQueryRowScanCount
  Tton := tton
  NtotParse := ntotParse

/-- The row the model store keeps for a block: the arguments of `Exec`, column
by column. -/
def storedRowOf (tton : UTCTime → SqlValue) (block : Block) (json : String) : StoredRow :=
  { height := block.Height
    hash := block.Hash
    time := tton block.Time
    appHash := block.AppHash
    committedCouncilNodes := some json
    transactionCount := block.TransactionCount }

/-- The uniqueness test of the model store: a row with the height or with
the hash of the block is there already. -/
def conflicts (store : ModelStore) (block : Block) : Bool :=
  store.any (fun row => decide (row.height = block.Height) || decide (row.hash = block.Hash))

/-- The inserts of a sequence of blocks, one after the other: the store
afterwards and what each `Insert` returned. -/
def insertAll {σ : Type} (jsoniter : Jsoniter) (view : Blocks σ) :
    σ → List Block → σ × List (Option GoError)
  | store, [] => (store, [])
  | store, block :: rest =>
    let first := view.Insert jsoniter store block
    let others := insertAll jsoniter view first.1 rest
    (others.1, first.2 :: others.2)

/-! ## Sample values -/

/-- The council node of the example in section 8 of the specification:
2024-01-01T00:00:00Z is 1704067200 seconds after the epoch. -/
def sampleNode : BlockCommittedCouncilNode :=
  { Address := "val1"
    Time := ⟨1704067200000000000⟩
    Signature := "sig1"
    IsProposer := true }

/-- A time encoding in the manner of `Tton`: the nanosecond count. -/
def fixtureTton (t : UTCTime) : SqlValue :=
  .int t.UnixNano

/-- The matching reader: a number is a nanosecond count, a NULL column gives
a nil time without an error (as the scan of the JSON column gives a nil
string), and text is refused. -/
def fixtureNtotParse : SqlValue → Option UTCTime × Option GoError
  | .int unixNano => (some (utctimeFromUnixNano unixNano), none)
  | .null => (none, none)
  | .text _ => (none, some (.leaf "cannot parse a time from text"))

def sampleNodesJSON : String :=
  "[\x7b\"Address\":\"val1\",\"Time\":\"2024-01-01T00:00:00Z\",\"Signature\":\"sig1\",\"IsProposer\":true\x7d]"

/-- A JSON codec that knows the nil slice, the empty slice and the slice of
the one sample node, and refuses everything else. -/
def fixtureJsoniter : Jsoniter where
  MarshalToString nodes :=
    if nodes = none then .ok "null"
    else if nodes = some [] then .ok "[]"
    else if nodes = some [sampleNode] then .ok sampleNodesJSON
    else .error (.leaf "unsupported value")
  Unmarshal text :=
    if text = "null" then .ok none
    else if text = "[]" then .ok (some [])
    else if text = sampleNodesJSON then .ok (some [sampleNode])
    else .error (.leaf "invalid JSON")

/-- A JSON codec that refuses every value and every text. -/
def rejectingJsoniter : Jsoniter where
  MarshalToString _ := .error (.leaf "unsupported value")
  Unmarshal _ := .error (.leaf "invalid JSON")

/-- The view over the model store. -/
def fixtureView : Blocks ModelStore :=
  NewBlocks (modelHandle fixtureTton fixtureNtotParse)

/-- A statement builder that fails on every chain. -/
def brokenStmtBuilder : StmtBuilder where
  InsertToSql _ _ _ := .error (.leaf "insert statements must have at least one set of values")
  SelectToSql _ _ _ := .error (.leaf "select statements must have at least one result column")

/-- The view over the model store, with the failing statement builder. -/
def brokenBuilderView : Blocks ModelStore :=
  NewBlocks { modelHandle fixtureTton fixtureNtotParse with StmtBuilder := brokenStmtBuilder }

/-- The view over a store that cannot be reached: every statement fails in
the driver. -/
def unreachableView : Blocks ModelStore :=
  NewBlocks
    { modelHandle fixtureTton fixtureNtotParse with
      Exec := fun store _ _ => (store, .error (.leaf "connection refused"))
      QueryRowScanBlock := fun store _ _ => (store, .error (.leaf "connection refused"))
      QueryRowScanCount := fun store _ _ => (store, .error (.leaf "connection refused")) }

/-- The view over a store whose driver reports two rows affected by an
insert. -/
def twoRowsView : Blocks ModelStore :=
  NewBlocks
    { modelHandle fixtureTton fixtureNtotParse with
      Exec := fun store _ _ => (store, .ok 2) }

/-- The block of the example in section 8 of the specification. -/
def sampleBlock : Block :=
  { Height := 100
    Hash := "H100"
    Time := ⟨1704067200000000000⟩
    AppHash := "A"
    TransactionCount := 5
    CommittedCouncilNodes := some [sampleNode] }

/-- A block with an empty sequence of council nodes. -/
def emptyNodesBlock : Block :=
  { Height := 101
    Hash := "H101"
    Time := ⟨1704067206000000000⟩
    AppHash := "B"
    TransactionCount := 0
    CommittedCouncilNodes := some [] }

/-- A table holding the sample block with text in its time column. -/
def textTimeStore : ModelStore :=
  [{ height := 100, hash := "H100", time := .text "yesterday", appHash := "A",
     committedCouncilNodes := some "[]", transactionCount := 5 }]

/-- A table holding the sample block with text that is no JSON in its
council-node column. -/
def malformedNodesStore : ModelStore :=
  [{ height := 100, hash := "H100", time := .int 1704067200000000000, appHash := "A",
     committedCouncilNodes := some "[", transactionCount := 5 }]

/-- A table holding the sample block with a NULL time column. -/
def nullTimeStore : ModelStore :=
  [{ height := 100, hash := "H100", time := .null, appHash := "A",
     committedCouncilNodes := some "[]", transactionCount := 5 }]

/-- The table after the sample block is inserted through `fixtureView`. -/
def sampleStore : ModelStore :=
  [{ height := 100, hash := "H100", time := .int 1704067200000000000, appHash := "A",
     committedCouncilNodes := some sampleNodesJSON, transactionCount := 5 }]

/-- The table after the sample block and then the block with no council
nodes are inserted through `fixtureView`. -/
def twoBlocksStore : ModelStore :=
  [{ height := 100, hash := "H100", time := .int 1704067200000000000, appHash := "A",
     committedCouncilNodes := some sampleNodesJSON, transactionCount := 5 },
   { height := 101, hash := "H101", time := .int 1704067206000000000, appHash := "B",
     committedCouncilNodes := some "[]", transactionCount := 0 }]

/-- A table holding the sample block and, next to it, a row with a NULL
council-node column. -/
def mixedStore : ModelStore :=
  [{ height := 100, hash := "H100", time := .int 1704067200000000000, appHash := "A",
     committedCouncilNodes := some sampleNodesJSON, transactionCount := 5 },
   { height := 102, hash := "H102", time := .int 1704067212000000000, appHash := "C",
     committedCouncilNodes := none, transactionCount := 1 }]

/-! ## Properties -/

theorem wrapInt64_of_inRange (x : Int) (hlo : -(2 ^ 63) ≤ x) (hhi : x < 2 ^ 63) :
    wrapInt64 x = x := by
  unfold wrapInt64
  rw [Int.emod_eq_of_lt (by omega) (by omega)]
  omega

/-- C1. A council node whose time is representable as an `int64` of
nanoseconds since the epoch survives the conversion to the storage form and
back: all four fields, the time nanosecond for nanosecond. -/
theorem councilNode_roundtrip (raw : BlockCommittedCouncilNode)
    (hlo : -(2 ^ 63) ≤ raw.Time.nanos) (hhi : raw.Time.nanos < 2 ^ 63) :
    (NewRdbBlockCommittedCouncilNodeFromRaw raw).ToRaw = raw := by
  cases raw with
  | mk a t s p =>
    cases t with
    | mk n =>
      simp only [NewRdbBlockCommittedCouncilNodeFromRaw, RdbBlockCommittedCouncilNode.ToRaw,
        UTCTime.UnixNano, utctimeFromUnixNano]
      rw [wrapInt64_of_inRange n hlo hhi]

theorem councilNode_roundtrip_witness :
    (NewRdbBlockCommittedCouncilNodeFromRaw sampleNode).ToRaw = sampleNode :=
  councilNode_roundtrip sampleNode (by decide) (by decide)


/-! ### Error kinds of `Insert` -/

/-- C3. Once the statement is built and the council nodes are encoded,
`Insert` returns nil exactly when `Exec` reports no error and one affected
row, and in every other case it returns an error that wraps `rdb.ErrWrite`.
-/
theorem Insert_success_iff_one_row {σ : Type} (jsoniter : Jsoniter) (view : Blocks σ)
    (store : σ) (block : Block) (sql : String) (args : List SqlValue) (text : String)
    (hbuild : view.rdb.StmtBuilder.InsertToSql "view_blocks" blockColumns insertPlaceholders
      = .ok (sql, args))
    (hjson : jsoniter.MarshalToString block.CommittedCouncilNodes = .ok text) :
    ((view.Insert jsoniter store block).2 = none ↔
        (view.rdb.Exec store sql (insertArgs view block text)).2 = .ok 1) ∧
      ((view.Insert jsoniter store block).2 = none ∨
        ∃ err, (view.Insert jsoniter store block).2 = some err ∧
          errorsIs err .ErrWrite = true) := by
  unfold Blocks.Insert
  simp only [hbuild, hjson]
  rcases hexec : view.rdb.Exec store sql (insertArgs view block text) with ⟨store', result⟩
  cases result with
  | error err =>
    refine ⟨by simp, Or.inr ⟨_, rfl, ?_⟩⟩
    simp [errorsIs]
  | ok rowsAffected =>
    by_cases hrows : rowsAffected = 1
    · subst hrows
      simp
    · refine ⟨by simp [hrows], Or.inr ⟨_, by simp only [hrows, ne_eq, not_false_eq_true, if_true]; rfl, ?_⟩⟩
      simp [errorsIs]

theorem Insert_success_iff_one_row_witness :
    (((fixtureView.Insert fixtureJsoniter [] sampleBlock).2 = none ↔
        (fixtureView.rdb.Exec [] insertBlockSql
          (insertArgs fixtureView sampleBlock sampleNodesJSON)).2 = .ok 1) ∧
      ((fixtureView.Insert fixtureJsoniter [] sampleBlock).2 = none ∨
        ∃ err, (fixtureView.Insert fixtureJsoniter [] sampleBlock).2 = some err ∧
          errorsIs err .ErrWrite = true)) ∧
    (((twoRowsView.Insert fixtureJsoniter [] sampleBlock).2 = none ↔
        (twoRowsView.rdb.Exec [] insertBlockSql
          (insertArgs twoRowsView sampleBlock sampleNodesJSON)).2 = .ok 1) ∧
      ((twoRowsView.Insert fixtureJsoniter [] sampleBlock).2 = none ∨
        ∃ err, (twoRowsView.Insert fixtureJsoniter [] sampleBlock).2 = some err ∧
          errorsIs err .ErrWrite = true)) :=
  ⟨Insert_success_iff_one_row fixtureJsoniter fixtureView [] sampleBlock insertBlockSql
      insertPlaceholders sampleNodesJSON rfl rfl,
    Insert_success_iff_one_row fixtureJsoniter twoRowsView [] sampleBlock insertBlockSql
      insertPlaceholders sampleNodesJSON rfl rfl⟩

/-- C6, as the code has it. When the statement is built and the council
nodes cannot be JSON-encoded, `Insert` returns, without a call to the store,
an error that wraps `rdb.ErrBuildSQLStmt`, the value a failed statement build
is wrapped around as well, and no other value of `rdb`. -/
theorem Insert_marshal_failure_wraps_build {σ : Type} (jsoniter : Jsoniter) (view : Blocks σ)
    (store : σ) (block : Block) (sql : String) (args : List SqlValue) (cause : GoError)
    (hbuild : view.rdb.StmtBuilder.InsertToSql "view_blocks" blockColumns insertPlaceholders
      = .ok (sql, args))
    (hjson : jsoniter.MarshalToString block.CommittedCouncilNodes = .error cause) :
    (view.Insert jsoniter store block).1 = store ∧
      ∃ err, (view.Insert jsoniter store block).2 = some err ∧
        ∀ target, errorsIs err target = decide (target = .ErrBuildSQLStmt) := by
  unfold Blocks.Insert
  simp only [hbuild, hjson]
  refine ⟨trivial, _, rfl, ?_⟩
  intro target
  cases target <;> simp [errorsIs]

theorem Insert_marshal_failure_wraps_build_witness :
    (fixtureView.Insert rejectingJsoniter [] sampleBlock).1 = [] ∧
      ∃ err, (fixtureView.Insert rejectingJsoniter [] sampleBlock).2 = some err ∧
        ∀ target, errorsIs err target = decide (target = .ErrBuildSQLStmt) :=
  Insert_marshal_failure_wraps_build rejectingJsoniter fixtureView [] sampleBlock
    insertBlockSql insertPlaceholders (.leaf "unsupported value") rfl rfl

/-- C6, as stated, fails. The statement is built, the council nodes of the
sample block cannot be encoded, and the error `Insert` returns identifies as
`rdb.ErrBuildSQLStmt`. -/
theorem Insert_marshal_failure_is_build_kind :
    fixtureView.rdb.StmtBuilder.InsertToSql "view_blocks" blockColumns insertPlaceholders
        = .ok (insertBlockSql, insertPlaceholders) ∧
      rejectingJsoniter.MarshalToString sampleBlock.CommittedCouncilNodes
        = .error (.leaf "unsupported value") ∧
      ∃ err, (fixtureView.Insert rejectingJsoniter [] sampleBlock).2 = some err ∧
        errorsIs err .ErrBuildSQLStmt = true :=
  ⟨rfl, rfl, _, rfl, rfl⟩

/-! ### Error kinds of `FindBy` and `Count` -/

/-- C4. Once the statement is built: when the scan reports `rdb.ErrNoRows`
itself, `FindBy` returns a nil block and that very value; when the scan
reports another error, when the time reader reports an error, and when the
JSON decoding reports an error, it returns a nil block and an error that
wraps `rdb.ErrQuery`, is not `rdb.ErrNoRows` and does not wrap it. -/
theorem FindBy_notFound_verbatim_else_query {σ : Type} (jsoniter : Jsoniter)
    (view : Blocks σ) (store : σ) (identity : BlockIdentity) (condition : String × SqlValue)
    (sql : String) (sqlArgs : List SqlValue)
    (hwhere : findByWhere identity = .returned condition)
    (hbuild : view.rdb.StmtBuilder.SelectToSql blockColumns "view_blocks" (some condition)
      = .ok (sql, sqlArgs)) :
    ((view.rdb.QueryRowScanBlock store sql sqlArgs).2 = .error (.sentinel .ErrNoRows) →
        (view.FindBy jsoniter store identity).2
          = .returned (none, some (.sentinel .ErrNoRows))) ∧
      (∀ cause, (view.rdb.QueryRowScanBlock store sql sqlArgs).2 = .error cause →
        cause ≠ .sentinel .ErrNoRows →
        ∃ err, (view.FindBy jsoniter store identity).2 = .returned (none, some err) ∧
          errorsIs err .ErrQuery = true ∧ err ≠ .sentinel .ErrNoRows ∧
          errorsIs err .ErrNoRows = false) ∧
      (∀ row blockTime cause, (view.rdb.QueryRowScanBlock store sql sqlArgs).2 = .ok row →
        view.rdb.NtotParse row.Time = (blockTime, some cause) →
        ∃ err, (view.FindBy jsoniter store identity).2 = .returned (none, some err) ∧
          errorsIs err .ErrQuery = true ∧ err ≠ .sentinel .ErrNoRows ∧
          errorsIs err .ErrNoRows = false) ∧
      (∀ row blockTime text cause,
        (view.rdb.QueryRowScanBlock store sql sqlArgs).2 = .ok row →
        view.rdb.NtotParse row.Time = (some blockTime, none) →
        row.CommittedCouncilNodesJSON = some text →
        jsoniter.Unmarshal text = .error cause →
        ∃ err, (view.FindBy jsoniter store identity).2 = .returned (none, some err) ∧
          errorsIs err .ErrQuery = true ∧ err ≠ .sentinel .ErrNoRows ∧
          errorsIs err .ErrNoRows = false) := by
  unfold Blocks.FindBy
  simp only [hwhere, hbuild]
  rcases hscan : view.rdb.QueryRowScanBlock store sql sqlArgs with ⟨store', result⟩
  refine ⟨?_, ?_, ?_, ?_⟩
  · intro h
    simp only at h
    subst h
    simp
  · intro cause h hne
    simp only at h
    subst h
    refine ⟨.errorfVW "error scanning block row" cause (.sentinel .ErrQuery), ?_, ?_, ?_, ?_⟩
    · simp [hne]
    · simp [errorsIs]
    · simp
    · simp [errorsIs]
  · intro row blockTime cause h hparse
    simp only at h
    subst h
    refine ⟨.errorfVW "error parsing block time" cause (.sentinel .ErrQuery), ?_, ?_, ?_, ?_⟩
    · simp [hparse]
    · simp [errorsIs]
    · simp
    · simp [errorsIs]
  · intro row blockTime text cause h hparse hnodes hdecode
    simp only at h
    subst h
    refine ⟨.errorfVW "error unmarshalling block council nodes JSON" cause
      (.sentinel .ErrQuery), ?_, ?_, ?_, ?_⟩
    · simp [hparse, hnodes, hdecode]
    · simp [errorsIs]
    · simp
    · simp [errorsIs]

theorem FindBy_notFound_verbatim_else_query_witness :
    (fixtureView.FindBy fixtureJsoniter [] ⟨none, some "H100"⟩).2
        = .returned (none, some (.sentinel .ErrNoRows)) ∧
      (∃ err, (unreachableView.FindBy fixtureJsoniter sampleStore ⟨some 100, none⟩).2
          = .returned (none, some err) ∧
        errorsIs err .ErrQuery = true ∧ err ≠ .sentinel .ErrNoRows ∧
        errorsIs err .ErrNoRows = false) ∧
      (∃ err, (fixtureView.FindBy fixtureJsoniter textTimeStore ⟨some 100, none⟩).2
          = .returned (none, some err) ∧
        errorsIs err .ErrQuery = true ∧ err ≠ .sentinel .ErrNoRows ∧
        errorsIs err .ErrNoRows = false) ∧
      (∃ err, (fixtureView.FindBy fixtureJsoniter malformedNodesStore ⟨none, some "H100"⟩).2
          = .returned (none, some err) ∧
        errorsIs err .ErrQuery = true ∧ err ≠ .sentinel .ErrNoRows ∧
        errorsIs err .ErrNoRows = false) :=
  ⟨(FindBy_notFound_verbatim_else_query fixtureJsoniter fixtureView [] ⟨none, some "H100"⟩
      ("hash = ?", .text "H100") selectByHashSql [.text "H100"] rfl rfl).1 rfl,
    (FindBy_notFound_verbatim_else_query fixtureJsoniter unreachableView sampleStore
      ⟨some 100, none⟩ ("height = ?", .int 100) selectByHeightSql [.int 100] rfl rfl).2.1
      (.leaf "connection refused") rfl (by decide),
    (FindBy_notFound_verbatim_else_query fixtureJsoniter fixtureView textTimeStore
      ⟨some 100, none⟩ ("height = ?", .int 100) selectByHeightSql [.int 100] rfl rfl).2.2.1
      _ none (.leaf "cannot parse a time from text") rfl rfl,
    (FindBy_notFound_verbatim_else_query fixtureJsoniter fixtureView malformedNodesStore
      ⟨none, some "H100"⟩ ("hash = ?", .text "H100") selectByHashSql [.text "H100"]
      rfl rfl).2.2.2
      _ (utctimeFromUnixNano 1704067200000000000) "[" (.leaf "invalid JSON") rfl rfl rfl rfl⟩

/-- C8, at a statement builder that fails. `FindBy` returns a nil block and
an error that wraps `rdb.ErrPrepare` and not `rdb.ErrBuildSQLStmt`, while the
error `Insert` returns over the same builder wraps `rdb.ErrBuildSQLStmt` and
not `rdb.ErrPrepare`: the two build failures carry different values. -/
theorem FindBy_build_failure_wraps_prepare :
    (∃ err, (brokenBuilderView.FindBy fixtureJsoniter [] ⟨none, some "H100"⟩).2
          = .returned (none, some err) ∧
        errorsIs err .ErrPrepare = true ∧ errorsIs err .ErrBuildSQLStmt = false) ∧
      (∃ err, (brokenBuilderView.Insert fixtureJsoniter [] sampleBlock).2 = some err ∧
        errorsIs err .ErrBuildSQLStmt = true ∧ errorsIs err .ErrPrepare = false) :=
  ⟨⟨_, rfl, rfl, rfl⟩, ⟨_, rfl, rfl, rfl⟩⟩

/-- C7, at a statement builder that fails and at a store whose scan fails.
`Count` returns the count 0 and an error in both cases, and in both the
error wraps no value of `rdb` at all: `errors.Is` is false for each of them.
-/
theorem Count_errors_wrap_nothing :
    (∃ err, brokenBuilderView.Count sampleStore = (sampleStore, (0, some err)) ∧
        ∀ target, errorsIs err target = false) ∧
      (∃ err, unreachableView.Count sampleStore = (sampleStore, (0, some err)) ∧
        ∀ target, errorsIs err target = false) :=
  ⟨⟨_, rfl, fun _ => rfl⟩, ⟨_, rfl, fun _ => rfl⟩⟩

/-! ### The filter of `FindBy` -/

theorem FindBy_of_condition {σ : Type} (jsoniter : Jsoniter) (view : Blocks σ) (store : σ)
    (identity : BlockIdentity) (condition : String × SqlValue)
    (hwhere : findByWhere identity = .returned condition) :
    (∀ cause,
        view.rdb.StmtBuilder.SelectToSql blockColumns "view_blocks" (some condition)
          = .error cause →
        view.FindBy jsoniter store identity
          = (store, .returned (none, some (.errorfVW "error building blocks selection sql"
              cause (.sentinel .ErrPrepare))))) ∧
      (∀ sql sqlArgs,
        view.rdb.StmtBuilder.SelectToSql blockColumns "view_blocks" (some condition)
          = .ok (sql, sqlArgs) →
        (view.FindBy jsoniter store identity).1
            = (view.rdb.QueryRowScanBlock store sql sqlArgs).1 ∧
          (∀ cause, (view.rdb.QueryRowScanBlock store sql sqlArgs).2 = .error cause →
            (view.FindBy jsoniter store identity).2
              = .returned (none, some (if cause = .sentinel .ErrNoRows then
                  .sentinel .ErrNoRows
                else .errorfVW "error scanning block row" cause (.sentinel .ErrQuery)))) ∧
          (∀ row blockTime text nodes,
            (view.rdb.QueryRowScanBlock store sql sqlArgs).2 = .ok row →
            view.rdb.NtotParse row.Time = (some blockTime, none) →
            row.CommittedCouncilNodesJSON = some text →
            jsoniter.Unmarshal text = .ok nodes →
            (view.FindBy jsoniter store identity).2
              = .returned (some
                  { Height := row.Height
                    Hash := row.Hash
                    Time := blockTime
                    AppHash := row.AppHash
                    TransactionCount := row.TransactionCount
                    CommittedCouncilNodes := nodes }, none))) := by
  refine ⟨?_, ?_⟩
  · intro cause hbuild
    unfold Blocks.FindBy
    simp only [hwhere, hbuild]
  · intro sql sqlArgs hbuild
    unfold Blocks.FindBy
    simp only [hwhere, hbuild]
    rcases hscan : view.rdb.QueryRowScanBlock store sql sqlArgs with ⟨store', result⟩
    refine ⟨?_, ?_, ?_⟩
    · cases result with
      | error cause => simp only []; split <;> rfl
      | ok row =>
        simp only []
        split
        · rfl
        · rfl
        · split
          · rfl
          · split <;> rfl
    · intro cause h
      simp only at h
      subst h
      simp only []
      split <;> rfl
    · intro row blockTime text nodes h hparse hnodes hdecode
      simp only at h
      subst h
      simp only [hparse, hnodes, hdecode]

/-- C5. `FindBy` filters by `hash = ?` with the value of `MaybeHash`
whenever it is present, whatever `MaybeHeight` holds; it filters by
`height = ?` with the value of `MaybeHeight` exactly when `MaybeHash` is
absent and `MaybeHeight` present; and with `MaybeHash` present the whole
call does not depend on `MaybeHeight`. The statement `FindBy` has built, and
the one it then scans a row from, is the select with that predicate and that
argument: when the builder fails on it `FindBy` returns that failure, and
when the builder gives a statement the store, the error and the block that
`FindBy` returns are those of the scan of that statement on the store. -/
theorem FindBy_prefers_hash :
    (∀ (maybeHeight : Option Int) (hash : String),
        findByWhere ⟨maybeHeight, some hash⟩ = .returned ("hash = ?", .text hash)) ∧
      (∀ (identity : BlockIdentity) (height : Int),
        findByWhere identity = .returned ("height = ?", .int height) ↔
          identity.MaybeHash = none ∧ identity.MaybeHeight = some height) ∧
      (∀ (σ : Type) (jsoniter : Jsoniter) (view : Blocks σ) (store : σ)
          (maybeHeight otherHeight : Option Int) (hash : String),
        view.FindBy jsoniter store ⟨maybeHeight, some hash⟩
          = view.FindBy jsoniter store ⟨otherHeight, some hash⟩) ∧
      (∀ (σ : Type) (jsoniter : Jsoniter) (view : Blocks σ) (store : σ)
          (maybeHeight : Option Int) (hash : String),
        (∀ cause,
          view.rdb.StmtBuilder.SelectToSql blockColumns "view_blocks"
            (some ("hash = ?", .text hash)) = .error cause →
          view.FindBy jsoniter store ⟨maybeHeight, some hash⟩
            = (store, .returned (none, some (.errorfVW "error building blocks selection sql"
                cause (.sentinel .ErrPrepare))))) ∧
        (∀ sql sqlArgs,
          view.rdb.StmtBuilder.SelectToSql blockColumns "view_blocks"
            (some ("hash = ?", .text hash)) = .ok (sql, sqlArgs) →
          (view.FindBy jsoniter store ⟨maybeHeight, some hash⟩).1
              = (view.rdb.QueryRowScanBlock store sql sqlArgs).1 ∧
            (∀ cause, (view.rdb.QueryRowScanBlock store sql sqlArgs).2 = .error cause →
              (view.FindBy jsoniter store ⟨maybeHeight, some hash⟩).2
                = .returned (none, some (if cause = .sentinel .ErrNoRows then
                    .sentinel .ErrNoRows
                  else .errorfVW "error scanning block row" cause (.sentinel .ErrQuery)))) ∧
            (∀ row blockTime text nodes,
              (view.rdb.QueryRowScanBlock store sql sqlArgs).2 = .ok row →
              view.rdb.NtotParse row.Time = (some blockTime, none) →
              row.CommittedCouncilNodesJSON = some text →
              jsoniter.Unmarshal text = .ok nodes →
              (view.FindBy jsoniter store ⟨maybeHeight, some hash⟩).2
                = .returned (some
                    { Height := row.Height
                      Hash := row.Hash
                      Time := blockTime
                      AppHash := row.AppHash
                      TransactionCount := row.TransactionCount
                      CommittedCouncilNodes := nodes }, none)))) ∧
      (∀ (σ : Type) (jsoniter : Jsoniter) (view : Blocks σ) (store : σ) (height : Int),
        (∀ cause,
          view.rdb.StmtBuilder.SelectToSql blockColumns "view_blocks"
            (some ("height = ?", .int height)) = .error cause →
          view.FindBy jsoniter store ⟨some height, none⟩
            = (store, .returned (none, some (.errorfVW "error building blocks selection sql"
                cause (.sentinel .ErrPrepare))))) ∧
        (∀ sql sqlArgs,
          view.rdb.StmtBuilder.SelectToSql blockColumns "view_blocks"
            (some ("height = ?", .int height)) = .ok (sql, sqlArgs) →
          (view.FindBy jsoniter store ⟨some height, none⟩).1
              = (view.rdb.QueryRowScanBlock store sql sqlArgs).1 ∧
            (∀ cause, (view.rdb.QueryRowScanBlock store sql sqlArgs).2 = .error cause →
              (view.FindBy jsoniter store ⟨some height, none⟩).2
                = .returned (none, some (if cause = .sentinel .ErrNoRows then
                    .sentinel .ErrNoRows
                  else .errorfVW "error scanning block row" cause (.sentinel .ErrQuery)))) ∧
            (∀ row blockTime text nodes,
              (view.rdb.QueryRowScanBlock store sql sqlArgs).2 = .ok row →
              view.rdb.NtotParse row.Time = (some blockTime, none) →
              row.CommittedCouncilNodesJSON = some text →
              jsoniter.Unmarshal text = .ok nodes →
              (view.FindBy jsoniter store ⟨some height, none⟩).2
                = .returned (some
                    { Height := row.Height
                      Hash := row.Hash
                      Time := blockTime
                      AppHash := row.AppHash
                      TransactionCount := row.TransactionCount
                      CommittedCouncilNodes := nodes }, none)))) := by
  refine ⟨fun _ _ => rfl, ?_, fun _ _ _ _ _ _ _ => rfl, ?_, ?_⟩
  · intro identity height
    rcases identity with ⟨maybeHeight, maybeHash⟩
    cases maybeHash with
    | some hash => simp [findByWhere]
    | none =>
      cases maybeHeight with
      | some h => simp [findByWhere]
      | none => simp [findByWhere]
  · intro σ jsoniter view store maybeHeight hash
    exact FindBy_of_condition jsoniter view store ⟨maybeHeight, some hash⟩
      ("hash = ?", .text hash) rfl
  · intro σ jsoniter view store height
    exact FindBy_of_condition jsoniter view store ⟨some height, none⟩
      ("height = ?", .int height) rfl

/-- The table holds block 100 under hash `H100` and block 101 under hash
`H101`. An identity with the hash of the first and the height of the second
finds the first; with the hash absent the height finds the second; a hash
the table does not hold gives `rdb.ErrNoRows` though the height is there;
and a failing builder is reported for the hash statement. -/
theorem FindBy_prefers_hash_witness :
    fixtureView.FindBy fixtureJsoniter twoBlocksStore ⟨some 101, some "H100"⟩
        = (twoBlocksStore, .returned (some sampleBlock, none)) ∧
      fixtureView.FindBy fixtureJsoniter twoBlocksStore ⟨some 101, none⟩
        = (twoBlocksStore, .returned (some emptyNodesBlock, none)) ∧
      (fixtureView.FindBy fixtureJsoniter twoBlocksStore ⟨some 101, some "H999"⟩).2
        = .returned (none, some (.sentinel .ErrNoRows)) ∧
      brokenBuilderView.FindBy fixtureJsoniter twoBlocksStore ⟨some 101, some "H100"⟩
        = (twoBlocksStore, .returned (none, some (.errorfVW
            "error building blocks selection sql"
            (.leaf "select statements must have at least one result column")
            (.sentinel .ErrPrepare)))) :=
  ⟨Prod.ext
      (((FindBy_prefers_hash.2.2.2.1 ModelStore fixtureJsoniter fixtureView twoBlocksStore
        (some 101) "H100").2 selectByHashSql [.text "H100"] rfl).1)
      (((FindBy_prefers_hash.2.2.2.1 ModelStore fixtureJsoniter fixtureView twoBlocksStore
        (some 101) "H100").2 selectByHashSql [.text "H100"] rfl).2.2
        _ (utctimeFromUnixNano 1704067200000000000) sampleNodesJSON (some [sampleNode])
        rfl rfl rfl rfl),
    Prod.ext
      (((FindBy_prefers_hash.2.2.2.2 ModelStore fixtureJsoniter fixtureView twoBlocksStore
        101).2 selectByHeightSql [.int 101] rfl).1)
      (((FindBy_prefers_hash.2.2.2.2 ModelStore fixtureJsoniter fixtureView twoBlocksStore
        101).2 selectByHeightSql [.int 101] rfl).2.2
        _ (utctimeFromUnixNano 1704067206000000000) "[]" (some [])
        rfl rfl rfl rfl),
    ((FindBy_prefers_hash.2.2.2.1 ModelStore fixtureJsoniter fixtureView twoBlocksStore
      (some 101) "H999").2 selectByHashSql [.text "H999"] rfl).2.1
      (.sentinel .ErrNoRows) rfl,
    (FindBy_prefers_hash.2.2.2.1 ModelStore fixtureJsoniter brokenBuilderView twoBlocksStore
      (some 101) "H100").1 _ rfl⟩

/-! ### Nil dereferences in `FindBy` -/

theorem findByWhere_returned_of_present (identity : BlockIdentity)
    (hid : identity.MaybeHash ≠ none ∨ identity.MaybeHeight ≠ none) :
    ∃ condition, findByWhere identity = .returned condition := by
  rcases identity with ⟨maybeHeight, maybeHash⟩
  cases maybeHash with
  | some hash => exact ⟨_, rfl⟩
  | none =>
    cases maybeHeight with
    | some height => exact ⟨_, rfl⟩
    | none => simp at hid

/-- C10, as the code has it. `FindBy` returns either a block and no error,
or no block and an error, whenever the identity has one of its fields set and
the row that the scan of its own statement delivers, if it delivers one, has
a non-null council-node text and a time the reader does not turn into a nil
time without an error. The three
dereferences are reachable otherwise: with both identity fields absent the
call faults at `*identity.MaybeHeight`; with a row whose council-node
column is NULL it faults at `*committedCouncilNodesJSON`; with a time reader
that gives nil and no error it faults at `*blockTime`. -/
theorem FindBy_returns_unless_nil {σ : Type} (jsoniter : Jsoniter) (view : Blocks σ)
    (store : σ) (identity : BlockIdentity) :
    ((identity.MaybeHash ≠ none ∨ identity.MaybeHeight ≠ none) →
        (∀ condition sql sqlArgs row,
          findByWhere identity = .returned condition →
          view.rdb.StmtBuilder.SelectToSql blockColumns "view_blocks" (some condition)
            = .ok (sql, sqlArgs) →
          (view.rdb.QueryRowScanBlock store sql sqlArgs).2 = .ok row →
          row.CommittedCouncilNodesJSON ≠ none ∧
            view.rdb.NtotParse row.Time ≠ (none, none)) →
        (∃ block, (view.FindBy jsoniter store identity).2 = .returned (some block, none)) ∨
          ∃ err, (view.FindBy jsoniter store identity).2 = .returned (none, some err)) ∧
      (identity.MaybeHash = none → identity.MaybeHeight = none →
        view.FindBy jsoniter store identity = (store, .fault .MaybeHeight)) ∧
      (∀ condition sql sqlArgs row blockTime,
        findByWhere identity = .returned condition →
        view.rdb.StmtBuilder.SelectToSql blockColumns "view_blocks" (some condition)
          = .ok (sql, sqlArgs) →
        (view.rdb.QueryRowScanBlock store sql sqlArgs).2 = .ok row →
        view.rdb.NtotParse row.Time = (some blockTime, none) →
        row.CommittedCouncilNodesJSON = none →
        (view.FindBy jsoniter store identity).2 = .fault .committedCouncilNodesJSON) ∧
      (∀ condition sql sqlArgs row,
        findByWhere identity = .returned condition →
        view.rdb.StmtBuilder.SelectToSql blockColumns "view_blocks" (some condition)
          = .ok (sql, sqlArgs) →
        (view.rdb.QueryRowScanBlock store sql sqlArgs).2 = .ok row →
        view.rdb.NtotParse row.Time = (none, none) →
        (view.FindBy jsoniter store identity).2 = .fault .blockTime) := by
  refine ⟨?_, ?_, ?_, ?_⟩
  · intro hid hrows
    obtain ⟨condition, hwhere⟩ := findByWhere_returned_of_present identity hid
    cases hbuild : view.rdb.StmtBuilder.SelectToSql blockColumns "view_blocks"
        (some condition) with
    | error cause =>
      right
      unfold Blocks.FindBy
      simp only [hwhere, hbuild]
      exact ⟨_, rfl⟩
    | ok built =>
      rcases built with ⟨sql, sqlArgs⟩
      have hrow := hrows condition sql sqlArgs
      rcases hscan : view.rdb.QueryRowScanBlock store sql sqlArgs with ⟨store', result⟩
      rw [hscan] at hrow
      cases result with
      | error cause =>
        right
        unfold Blocks.FindBy
        simp only [hwhere, hbuild, hscan]
        by_cases hcause : cause = .sentinel .ErrNoRows
        · simp only [hcause, if_true]
          exact ⟨_, rfl⟩
        · simp only [hcause, if_false]
          exact ⟨_, rfl⟩
      | ok row =>
        obtain ⟨hnodes, htime⟩ := hrow row hwhere hbuild rfl
        rcases hparse : view.rdb.NtotParse row.Time with ⟨blockTime, parseErr⟩
        cases parseErr with
        | some cause =>
          right
          unfold Blocks.FindBy
          simp only [hwhere, hbuild, hscan, hparse]
          exact ⟨_, rfl⟩
        | none =>
          cases blockTime with
          | none => exact absurd hparse htime
          | some blockTime =>
            cases hjson : row.CommittedCouncilNodesJSON with
            | none => exact absurd hjson hnodes
            | some text =>
              cases hdecode : jsoniter.Unmarshal text with
              | error cause =>
                right
                unfold Blocks.FindBy
                simp only [hwhere, hbuild, hscan, hparse, hjson, hdecode]
                exact ⟨_, rfl⟩
              | ok nodes =>
                left
                unfold Blocks.FindBy
                simp only [hwhere, hbuild, hscan, hparse, hjson, hdecode]
                exact ⟨_, rfl⟩
  · intro hhash hheight
    rcases identity with ⟨maybeHeight, maybeHash⟩
    simp only at hhash hheight
    subst hhash hheight
    rfl
  · intro condition sql sqlArgs row blockTime hwhere hbuild hscan hparse hnodes
    unfold Blocks.FindBy
    simp only [hwhere, hbuild]
    rcases hq : view.rdb.QueryRowScanBlock store sql sqlArgs with ⟨store', result⟩
    rw [hq] at hscan
    simp only at hscan
    subst hscan
    simp only [hparse, hnodes]
  · intro condition sql sqlArgs row hwhere hbuild hscan hparse
    unfold Blocks.FindBy
    simp only [hwhere, hbuild]
    rcases hq : view.rdb.QueryRowScanBlock store sql sqlArgs with ⟨store', result⟩
    rw [hq] at hscan
    simp only at hscan
    subst hscan
    simp only [hparse]

theorem FindBy_returns_unless_nil_witness :
    ((∃ block, (fixtureView.FindBy fixtureJsoniter mixedStore ⟨none, some "H100"⟩).2
          = .returned (some block, none)) ∨
        ∃ err, (fixtureView.FindBy fixtureJsoniter mixedStore ⟨none, some "H100"⟩).2
          = .returned (none, some err)) ∧
      fixtureView.FindBy fixtureJsoniter sampleStore ⟨none, none⟩
        = (sampleStore, .fault .MaybeHeight) ∧
      (fixtureView.FindBy fixtureJsoniter mixedStore ⟨none, some "H102"⟩).2
        = .fault .committedCouncilNodesJSON ∧
      (fixtureView.FindBy fixtureJsoniter nullTimeStore ⟨some 100, some "H100"⟩).2
        = .fault .blockTime :=
  ⟨(FindBy_returns_unless_nil fixtureJsoniter fixtureView mixedStore ⟨none, some "H100"⟩).1
      (Or.inl (by decide))
      (fun condition sql sqlArgs row hwhere hbuild hscan => by
        have hcondition : ("hash = ?", SqlValue.text "H100") = condition :=
          Outcome.returned.inj hwhere
        subst hcondition
        have hstatement : (selectByHashSql, [SqlValue.text "H100"]) = (sql, sqlArgs) :=
          Except.ok.inj hbuild
        obtain ⟨hsql, hargs⟩ := Prod.mk.inj hstatement
        subst hsql
        subst hargs
        have hrow : StoredRow.toBlockRow
            { height := 100, hash := "H100", time := .int 1704067200000000000, appHash := "A",
              committedCouncilNodes := some sampleNodesJSON, transactionCount := 5 } = row :=
          Except.ok.inj hscan
        subst hrow
        exact ⟨by decide, by decide⟩),
    (FindBy_returns_unless_nil fixtureJsoniter fixtureView sampleStore ⟨none, none⟩).2.1
      rfl rfl,
    (FindBy_returns_unless_nil fixtureJsoniter fixtureView mixedStore
      ⟨none, some "H102"⟩).2.2.1
      ("hash = ?", .text "H102") selectByHashSql [.text "H102"] _
      (utctimeFromUnixNano 1704067212000000000) rfl rfl rfl rfl rfl,
    (FindBy_returns_unless_nil fixtureJsoniter fixtureView nullTimeStore
      ⟨some 100, some "H100"⟩).2.2.2
      ("hash = ?", .text "H100") selectByHashSql [.text "H100"] _ rfl rfl rfl rfl⟩

/-- C10, as stated, fails. The identity has its hash set, the scan succeeds
and delivers a non-null council-node text, and `FindBy` faults all the same:
the time column is NULL, the reader gives a nil time and no error, and line
102 dereferences it. -/
theorem FindBy_faults_on_nil_time :
    (∃ row text,
        fixtureView.rdb.QueryRowScanBlock nullTimeStore selectByHashSql [.text "H100"]
          = (nullTimeStore, .ok row) ∧
        row.CommittedCouncilNodesJSON = some text ∧
        fixtureView.rdb.NtotParse row.Time = (none, none)) ∧
      fixtureView.FindBy fixtureJsoniter nullTimeStore ⟨none, some "H100"⟩
        = (nullTimeStore, .fault .blockTime) :=
  ⟨⟨_, _, rfl, rfl, rfl⟩, rfl⟩

/-! ### The view over the model store -/

theorem modelInsert_eq (jsoniter : Jsoniter) (tton : UTCTime → SqlValue)
    (ntotParse : SqlValue → Option UTCTime × Option GoError) (store : ModelStore)
    (block : Block) (json : String)
    (hjson : jsoniter.MarshalToString block.CommittedCouncilNodes = .ok json) :
    (NewBlocks (modelHandle tton ntotParse)).Insert jsoniter store block =
      if conflicts store block then
        (store, some (.errorfVW "error inserting block into the table"
          (.leaf "duplicate key value violates unique constraint") (.sentinel .ErrWrite)))
      else
        (store ++ [storedRowOf tton block json], none) := by
  have hbuild : (NewBlocks (modelHandle tton ntotParse)).rdb.StmtBuilder.InsertToSql
      "view_blocks" blockColumns insertPlaceholders = .ok (insertBlockSql, insertPlaceholders) :=
    rfl
  unfold Blocks.Insert
  simp only [hbuild, hjson]
  simp only [NewBlocks, modelHandle, modelExec, insertArgs, if_true, conflicts, storedRowOf]
  split_ifs <;> simp

theorem modelFindBy_hash (jsoniter : Jsoniter) (tton : UTCTime → SqlValue)
    (ntotParse : SqlValue → Option UTCTime × Option GoError) (store : ModelStore)
    (maybeHeight : Option Int) (hash : String) (stored : StoredRow) (blockTime : UTCTime)
    (text : String) (nodes : Option (List BlockCommittedCouncilNode))
    (hfind : store.find? (fun row => decide (row.hash = hash)) = some stored)
    (htime : ntotParse stored.time = (some blockTime, none))
    (hjson : stored.committedCouncilNodes = some text)
    (hdecode : jsoniter.Unmarshal text = .ok nodes) :
    (NewBlocks (modelHandle tton ntotParse)).FindBy jsoniter store ⟨maybeHeight, some hash⟩ =
      (store, .returned (some
        { Height := stored.height
          Hash := stored.hash
          Time := blockTime
          AppHash := stored.appHash
          TransactionCount := stored.transactionCount
          CommittedCouncilNodes := nodes }, none)) := by
  have hbuild : (NewBlocks (modelHandle tton ntotParse)).rdb.StmtBuilder.SelectToSql
      blockColumns "view_blocks" (some ("hash = ?", .text hash))
        = .ok (selectByHashSql, [.text hash]) := rfl
  unfold Blocks.FindBy
  simp only [findByWhere, hbuild]
  simp only [NewBlocks, modelHandle, modelQueryRowScanBlock, if_true, hfind,
    StoredRow.toBlockRow, htime, hjson, hdecode]

theorem modelFindBy_height (jsoniter : Jsoniter) (tton : UTCTime → SqlValue)
    (ntotParse : SqlValue → Option UTCTime × Option GoError) (store : ModelStore)
    (height : Int) (stored : StoredRow) (blockTime : UTCTime)
    (text : String) (nodes : Option (List BlockCommittedCouncilNode))
    (hfind : store.find? (fun row => decide (row.height = height)) = some stored)
    (htime : ntotParse stored.time = (some blockTime, none))
    (hjson : stored.committedCouncilNodes = some text)
    (hdecode : jsoniter.Unmarshal text = .ok nodes) :
    (NewBlocks (modelHandle tton ntotParse)).FindBy jsoniter store ⟨some height, none⟩ =
      (store, .returned (some
        { Height := stored.height
          Hash := stored.hash
          Time := blockTime
          AppHash := stored.appHash
          TransactionCount := stored.transactionCount
          CommittedCouncilNodes := nodes }, none)) := by
  have hbuild : (NewBlocks (modelHandle tton ntotParse)).rdb.StmtBuilder.SelectToSql
      blockColumns "view_blocks" (some ("height = ?", .int height))
        = .ok (selectByHeightSql, [.int height]) := rfl
  have hne : selectByHeightSql ≠ selectByHashSql := by decide
  unfold Blocks.FindBy
  simp only [findByWhere, hbuild]
  simp only [NewBlocks, modelHandle, modelQueryRowScanBlock, if_true, hne, if_false, hfind,
    StoredRow.toBlockRow, htime, hjson, hdecode]

theorem find?_hash_after_insert (tton : UTCTime → SqlValue) (store : ModelStore)
    (block : Block) (json : String) (hfree : conflicts store block = false) :
    (store ++ [storedRowOf tton block json]).find? (fun row => decide (row.hash = block.Hash))
      = some (storedRowOf tton block json) := by
  have hnone : store.find? (fun row => decide (row.hash = block.Hash)) = none := by
    rw [List.find?_eq_none]
    intro row hrow
    simp only [conflicts, List.any_eq_false] at hfree
    have := hfree row hrow
    simp only [Bool.or_eq_true, decide_eq_true_eq, not_or] at this
    simpa using this.2
  rw [List.find?_append, hnone]
  simp [storedRowOf]

theorem find?_height_after_insert (tton : UTCTime → SqlValue) (store : ModelStore)
    (block : Block) (json : String) (hfree : conflicts store block = false) :
    (store ++ [storedRowOf tton block json]).find?
        (fun row => decide (row.height = block.Height))
      = some (storedRowOf tton block json) := by
  have hnone : store.find? (fun row => decide (row.height = block.Height)) = none := by
    rw [List.find?_eq_none]
    intro row hrow
    simp only [conflicts, List.any_eq_false] at hfree
    have := hfree row hrow
    simp only [Bool.or_eq_true, decide_eq_true_eq, not_or] at this
    simpa using this.1
  rw [List.find?_append, hnone]
  simp [storedRowOf]

/-- C2. Over the model store, with a time reader that inverts the time
encoding at the time of `b` and a JSON decoder that inverts the encoder at
the council nodes of `b`: after a successful `Insert(b)`, `FindBy` by the
hash of `b` and `FindBy` by the height of `b` both return a block equal to
`b`, field for field; the council nodes come back as the same sequence, an
empty sequence as the empty sequence and not as the nil slice. -/
theorem Insert_then_FindBy_roundtrip (jsoniter : Jsoniter) (tton : UTCTime → SqlValue)
    (ntotParse : SqlValue → Option UTCTime × Option GoError) (store : ModelStore)
    (b : Block)
    (htime : ntotParse (tton b.Time) = (some b.Time, none))
    (hjson : ∀ text, jsoniter.MarshalToString b.CommittedCouncilNodes = .ok text →
      jsoniter.Unmarshal text = .ok b.CommittedCouncilNodes)
    (hinsert : ((NewBlocks (modelHandle tton ntotParse)).Insert jsoniter store b).2 = none) :
    (NewBlocks (modelHandle tton ntotParse)).FindBy jsoniter
        ((NewBlocks (modelHandle tton ntotParse)).Insert jsoniter store b).1
        ⟨none, some b.Hash⟩
      = (((NewBlocks (modelHandle tton ntotParse)).Insert jsoniter store b).1,
          .returned (some b, none)) ∧
    (NewBlocks (modelHandle tton ntotParse)).FindBy jsoniter
        ((NewBlocks (modelHandle tton ntotParse)).Insert jsoniter store b).1
        ⟨some b.Height, none⟩
      = (((NewBlocks (modelHandle tton ntotParse)).Insert jsoniter store b).1,
          .returned (some b, none)) := by
  cases hmarshal : jsoniter.MarshalToString b.CommittedCouncilNodes with
  | error cause =>
    have hbuild : (NewBlocks (modelHandle tton ntotParse)).rdb.StmtBuilder.InsertToSql
        "view_blocks" blockColumns insertPlaceholders
          = .ok (insertBlockSql, insertPlaceholders) := rfl
    unfold Blocks.Insert at hinsert
    simp only [hbuild, hmarshal] at hinsert
    simp at hinsert
  | ok json =>
    have hins := modelInsert_eq jsoniter tton ntotParse store b json hmarshal
    cases hfree : conflicts store b with
    | true =>
      rw [hins, hfree] at hinsert
      simp at hinsert
    | false =>
      rw [hins, hfree]
      simp only [Bool.false_eq_true, if_false]
      constructor
      · rw [modelFindBy_hash jsoniter tton ntotParse _ none b.Hash (storedRowOf tton b json)
          b.Time json b.CommittedCouncilNodes (find?_hash_after_insert tton store b json hfree)
          htime rfl (hjson json hmarshal)]
        rfl
      · rw [modelFindBy_height jsoniter tton ntotParse _ b.Height (storedRowOf tton b json)
          b.Time json b.CommittedCouncilNodes (find?_height_after_insert tton store b json hfree)
          htime rfl (hjson json hmarshal)]
        rfl

theorem Insert_then_FindBy_roundtrip_witness :
    (fixtureView.FindBy fixtureJsoniter
          (fixtureView.Insert fixtureJsoniter [] sampleBlock).1 ⟨none, some "H100"⟩
        = ((fixtureView.Insert fixtureJsoniter [] sampleBlock).1,
            .returned (some sampleBlock, none)) ∧
      fixtureView.FindBy fixtureJsoniter
          (fixtureView.Insert fixtureJsoniter [] sampleBlock).1 ⟨some 100, none⟩
        = ((fixtureView.Insert fixtureJsoniter [] sampleBlock).1,
            .returned (some sampleBlock, none))) ∧
    (fixtureView.FindBy fixtureJsoniter
          (fixtureView.Insert fixtureJsoniter sampleStore emptyNodesBlock).1
          ⟨none, some "H101"⟩
        = ((fixtureView.Insert fixtureJsoniter sampleStore emptyNodesBlock).1,
            .returned (some emptyNodesBlock, none)) ∧
      fixtureView.FindBy fixtureJsoniter
          (fixtureView.Insert fixtureJsoniter sampleStore emptyNodesBlock).1
          ⟨some 101, none⟩
        = ((fixtureView.Insert fixtureJsoniter sampleStore emptyNodesBlock).1,
            .returned (some emptyNodesBlock, none))) :=
  ⟨Insert_then_FindBy_roundtrip fixtureJsoniter fixtureTton fixtureNtotParse [] sampleBlock
      (by decide)
      (fun text h => by
        have htext : sampleNodesJSON = text := Except.ok.inj h
        subst htext
        rfl)
      rfl,
    Insert_then_FindBy_roundtrip fixtureJsoniter fixtureTton fixtureNtotParse sampleStore
      emptyNodesBlock
      (by decide)
      (fun text h => by
        have htext : "[]" = text := Except.ok.inj h
        subst htext
        rfl)
      rfl⟩

theorem sampleStore_eq_insert :
    fixtureView.Insert fixtureJsoniter [] sampleBlock = (sampleStore, none) := by
  rfl

theorem twoBlocksStore_eq_insertAll :
    insertAll fixtureJsoniter fixtureView [] [sampleBlock, emptyNodesBlock]
      = (twoBlocksStore, [none, none]) := by
  rfl

/-! ### Counting -/

theorem modelCount_eq (tton : UTCTime → SqlValue)
    (ntotParse : SqlValue → Option UTCTime × Option GoError) (store : ModelStore) :
    (NewBlocks (modelHandle tton ntotParse)).Count store = (store, ((store.length : Int), none)) := by
  have hbuild : (NewBlocks (modelHandle tton ntotParse)).rdb.StmtBuilder.SelectToSql
      ["COUNT(1)"] "view_blocks" none = .ok (countSql, []) := rfl
  unfold Blocks.Count
  simp only [hbuild]
  simp [NewBlocks, modelHandle, modelQueryRowScanCount]

theorem modelQueryRowScanBlock_fst (store : ModelStore) (sql : String) (args : List SqlValue) :
    (modelQueryRowScanBlock store sql args).1 = store := by
  unfold modelQueryRowScanBlock
  split_ifs
  · split
    · split <;> rfl
    · rfl
  · split
    · split <;> rfl
    · rfl
  · rfl

theorem FindBy_store {σ : Type} (jsoniter : Jsoniter) (view : Blocks σ) (store : σ)
    (identity : BlockIdentity) :
    (view.FindBy jsoniter store identity).1 = store ∨
      ∃ sql sqlArgs, (view.FindBy jsoniter store identity).1
        = (view.rdb.QueryRowScanBlock store sql sqlArgs).1 := by
  unfold Blocks.FindBy
  split
  · exact Or.inl rfl
  · split
    · exact Or.inl rfl
    · rename_i sql sqlArgs _
      right
      refine ⟨sql, sqlArgs, ?_⟩
      split
      · rename_i hscan
        rw [hscan]
        split <;> rfl
      · rename_i hscan
        rw [hscan]
        split
        · rfl
        · rfl
        · split
          · rfl
          · split <;> rfl

theorem conflicts_append_single (store : ModelStore) (row : StoredRow) (block : Block) :
    conflicts (store ++ [row]) block
      = (conflicts store block ||
          (decide (row.height = block.Height) || decide (row.hash = block.Hash))) := by
  simp [conflicts, List.any_append]

theorem insertAll_model (jsoniter : Jsoniter) (tton : UTCTime → SqlValue)
    (ntotParse : SqlValue → Option UTCTime × Option GoError) (blocks : List Block) :
    ∀ store : ModelStore,
      (∀ b ∈ blocks, conflicts store b = false) →
      (blocks.map fun b => b.Height).Nodup →
      (blocks.map fun b => b.Hash).Nodup →
      (∀ b ∈ blocks, ∃ text, jsoniter.MarshalToString b.CommittedCouncilNodes = .ok text) →
      (insertAll jsoniter (NewBlocks (modelHandle tton ntotParse)) store blocks).2
          = blocks.map (fun _ => none) ∧
        (insertAll jsoniter (NewBlocks (modelHandle tton ntotParse)) store blocks).1.length
          = store.length + blocks.length := by
  induction blocks with
  | nil =>
    intro store _ _ _ _
    simp [insertAll]
  | cons b rest ih =>
    intro store hfree hheights hhashes hjson
    obtain ⟨text, htext⟩ := hjson b (List.mem_cons_self b rest)
    have hins := modelInsert_eq jsoniter tton ntotParse store b text htext
    rw [hfree b (List.mem_cons_self b rest)] at hins
    simp only [Bool.false_eq_true, if_false] at hins
    simp only [List.map_cons, List.nodup_cons, List.mem_map, not_exists, not_and] at hheights hhashes
    have hfree' : ∀ b' ∈ rest, conflicts (store ++ [storedRowOf tton b text]) b' = false := by
      intro b' hb'
      rw [conflicts_append_single, hfree b' (List.mem_cons_of_mem b hb')]
      have h1 : b.Height ≠ b'.Height := fun h => hheights.1 b' hb' h.symm
      have h2 : b.Hash ≠ b'.Hash := fun h => hhashes.1 b' hb' h.symm
      simp [storedRowOf, h1, h2]
    have hrest := ih (store ++ [storedRowOf tton b text]) hfree' hheights.2 hhashes.2
      (fun b' hb' => hjson b' (List.mem_cons_of_mem b hb'))
    simp only [insertAll, hins, List.map_cons]
    refine ⟨by rw [hrest.1], ?_⟩
    rw [hrest.2]
    simp only [List.length_append, List.length_cons, List.length_nil]
    omega

/-- C9. Over the model store, for every sequence of blocks with pairwise
distinct heights and pairwise distinct hashes whose council nodes can be
encoded: starting from the empty table every `Insert` of the sequence
succeeds, and `Count` then returns the length of the sequence and no error
(0 for the empty sequence). `FindBy` and `Count` return the store as they
found it. -/
theorem Count_after_inserts (jsoniter : Jsoniter) (tton : UTCTime → SqlValue)
    (ntotParse : SqlValue → Option UTCTime × Option GoError) (blocks : List Block)
    (hheights : (blocks.map fun b => b.Height).Nodup)
    (hhashes : (blocks.map fun b => b.Hash).Nodup)
    (hjson : ∀ b ∈ blocks, ∃ text,
      jsoniter.MarshalToString b.CommittedCouncilNodes = .ok text) :
    (insertAll jsoniter (NewBlocks (modelHandle tton ntotParse)) [] blocks).2
        = blocks.map (fun _ => none) ∧
      (NewBlocks (modelHandle tton ntotParse)).Count
          (insertAll jsoniter (NewBlocks (modelHandle tton ntotParse)) [] blocks).1
        = ((insertAll jsoniter (NewBlocks (modelHandle tton ntotParse)) [] blocks).1,
            ((blocks.length : Int), none)) ∧
      (∀ store identity,
        ((NewBlocks (modelHandle tton ntotParse)).FindBy jsoniter store identity).1 = store) ∧
      (∀ store, ((NewBlocks (modelHandle tton ntotParse)).Count store).1 = store) := by
  have hall := insertAll_model jsoniter tton ntotParse blocks []
    (fun _ _ => rfl) hheights hhashes hjson
  refine ⟨hall.1, ?_, ?_, ?_⟩
  · rw [modelCount_eq, hall.2]
    simp
  · intro store identity
    rcases FindBy_store jsoniter (NewBlocks (modelHandle tton ntotParse)) store identity with
      h | ⟨sql, sqlArgs, h⟩
    · exact h
    · rw [h]
      exact modelQueryRowScanBlock_fst store sql sqlArgs
  · intro store
    rw [modelCount_eq]

theorem Count_after_inserts_witness :
    (insertAll fixtureJsoniter fixtureView [] [sampleBlock, emptyNodesBlock]).2
        = [none, none] ∧
      fixtureView.Count
          (insertAll fixtureJsoniter fixtureView [] [sampleBlock, emptyNodesBlock]).1
        = ((insertAll fixtureJsoniter fixtureView [] [sampleBlock, emptyNodesBlock]).1,
            (2, none)) ∧
      (∀ store identity, (fixtureView.FindBy fixtureJsoniter store identity).1 = store) ∧
      (∀ store, (fixtureView.Count store).1 = store) :=
  Count_after_inserts fixtureJsoniter fixtureTton fixtureNtotParse
    [sampleBlock, emptyNodesBlock] (by decide) (by decide)
    (fun b hb => by
      simp only [List.mem_cons, List.mem_singleton, List.not_mem_nil, or_false] at hb
      rcases hb with rfl | rfl
      · exact ⟨sampleNodesJSON, rfl⟩
      · exact ⟨"[]", rfl⟩)

end View
